import Mathlib

/-!
Shallow embedding of `cristalhq/certutil` (src/certutil.go) and proofs about
its parse, compare and size operations.

Modelling conventions:
* Go `*big.Int` fields become `Int` (value semantics; `Cmp x y != 0` is `x ≠ y`).
* Go `int` fields become `Int`.
* Byte slices (`ed25519.PublicKey`, `ed25519.PrivateKey`, DER payloads) become
  `List Nat`.
* The Go dynamic types flowing through `crypto.PublicKey` / the empty interface are
  embedded as closed inductives whose constructors stand for the dynamic types
  the type switches discriminate; an `other` constructor carries the `%T`
  type name of any other dynamic type.
* The external collaborators (`pem.Decode` and the `x509` DER parsers) are not
  code of this repository; the parse functions take them as function arguments,
  matching the collaborator model of the spec (a provided, trusted primitive library).
-/

set_option autoImplicit false

namespace Certutil

/-- Go `rsa.PublicKey`: modulus `N : *big.Int` and exponent `E : int`. -/
structure RSAPublicKey where
  N : Int
  E : Int
  deriving DecidableEq, Repr

/-- Go `rsa.PrivateKey`: embeds the public key; `D` stands for the private material. -/
structure RSAPrivateKey where
  pub : RSAPublicKey
  D : Int
  deriving DecidableEq, Repr

/-- Go `elliptic.CurveParams` as returned by `Curve.Params()`: prime `P`, order `N`,
coefficient `B`, generator `Gx`/`Gy`, `BitSize : int` and the (uncompared) `Name`. -/
structure CurveParams where
  P : Int
  N : Int
  B : Int
  Gx : Int
  Gy : Int
  BitSize : Int
  Name : String
  deriving DecidableEq, Repr

/-- Go `ecdsa.PublicKey`: a curve (represented by what `Params()` yields) and the
point coordinates `X`, `Y`. -/
structure ECDSAPublicKey where
  curve : CurveParams
  X : Int
  Y : Int
  deriving DecidableEq, Repr

/-- Go `ecdsa.PrivateKey`: embeds the public key plus the scalar `D`. -/
structure ECDSAPrivateKey where
  pub : ECDSAPublicKey
  D : Int
  deriving DecidableEq, Repr

/-- Go `dsa.PublicKey`: only `Y` matters to this core (`KeySize` reads `Y.BitLen()`). -/
structure DSAPublicKey where
  Y : Int
  deriving DecidableEq, Repr

/-- Go `dsa.PrivateKey`: embedded public `Y` plus the secret `X`. -/
structure DSAPrivateKey where
  Y : Int
  X : Int
  deriving DecidableEq, Repr

/-- The dynamic types a `crypto.PublicKey` interface value can hold, as the
type switches of the repository see them. `other` carries the `%T` name of any
dynamic type that is none of the three supported families. -/
inductive PublicKey where
  | rsa (k : RSAPublicKey)
  | ecdsa (k : ECDSAPublicKey)
  | ed25519 (bytes : List Nat)
  | other (typeName : String)
  deriving DecidableEq, Repr

/-- An X.509 certificate, opaque except for its embedded public key, exactly as
this core uses it (`cert.PublicKey` is an `any`, hence a `PublicKey`). -/
structure Certificate where
  publicKey : PublicKey
  deriving DecidableEq, Repr

/-- The error values returned by the functions of the repository. The `primitive`
constructor carries an error passed through unchanged from the x509 collaborator
library; the others carry the exact message / `%T` names the Go code formats. -/
inductive Err where
  | malformedInput (msg : String)
  | primitive (msg : String)
  | unsupportedKeyType (typeName : String)
  | incomparableKeyTypes (t1 t2 : String)
  deriving DecidableEq, Repr

/-- The `%T` name of a `PublicKey` dynamic type (Go `fmt` verb `%T`). -/
def PublicKey.typeName : PublicKey → String
  | .rsa _ => "*rsa.PublicKey"
  | .ecdsa _ => "*ecdsa.PublicKey"
  | .ed25519 _ => "ed25519.PublicKey"
  | .other t => t

/-- Go `ComparePublicKeys(key1, key2 crypto.PublicKey) (bool, error)` from
src/certutil.go lines 71-110, embedded arm by arm.

In each mismatch arm the Go code formats
`"key types do not match: %T and %T"` with `key1` and the *shadowed* `key2`
bound by the failed type assertion (`key2, ok := key2.(*rsa.PublicKey)`); that
shadowed variable is a typed nil of the asserted type, so `%T` prints the
type name of the asserted family, not the actual type of the second argument. -/
def ComparePublicKeys (key1 key2 : PublicKey) : Except Err Bool :=
  match key1 with
  | .rsa k1 =>
    match key2 with
    | .rsa k2 =>
      -- cmp := key1.N.Cmp(key2.N) != 0 || key1.E != key2.E; return cmp, nil
      .ok ((k1.N != k2.N) || (k1.E != k2.E))
    | _ => .error (.incomparableKeyTypes "*rsa.PublicKey" "*rsa.PublicKey")
  | .ecdsa k1 =>
    match key2 with
    | .ecdsa k2 =>
      if (k1.X != k2.X) || (k1.Y != k2.Y) then
        .ok false
      else
        let par1 := k1.curve
        let par2 := k2.curve
        .ok ((par1.P != par2.P) || (par1.N != par2.N) || (par1.B != par2.B) ||
             (par1.Gx != par2.Gx) || (par1.Gy != par2.Gy) ||
             (par1.BitSize != par2.BitSize))
    | _ => .error (.incomparableKeyTypes "*ecdsa.PublicKey" "*ecdsa.PublicKey")
  | .ed25519 b1 =>
    match key2 with
    | .ed25519 b2 =>
      -- key1.Equal(key2) is bytes.Equal on the raw key bytes
      .ok (b1 == b2)
    | _ => .error (.incomparableKeyTypes "ed25519.PublicKey" "ed25519.PublicKey")
  | .other t => .error (.unsupportedKeyType t)

/-- Go `big.Int.BitLen` on a natural number: 0 for 0, otherwise `floor(log2 n) + 1`. -/
def natBitLen (n : Nat) : Nat :=
  if n = 0 then 0 else Nat.log2 n + 1

/-- Go `big.Int.BitLen`: the length, in bits, of the absolute value. -/
def bitLen (n : Int) : Nat :=
  natBitLen n.natAbs

/-- Go `rsa.PublicKey.Size()`: `(pub.N.BitLen() + 7) / 8`, the modulus size in bytes. -/
def RSAPublicKey.size (k : RSAPublicKey) : Nat :=
  (bitLen k.N + 7) / 8

/-- The dynamic types the `KeySize` type switch (src/certutil.go lines 114-139)
distinguishes. The DSA cases of the switch are written over the *value* types
`dsa.PrivateKey` / `dsa.PublicKey`, so a pointer `*dsa.PrivateKey` /
`*dsa.PublicKey` is a distinct dynamic type that no case matches; both pointer
forms are separate constructors here so the switch can be embedded faithfully. -/
inductive AnyKey where
  | rsaPrivateKey (k : RSAPrivateKey)
  | rsaPublicKey (k : RSAPublicKey)
  | ecdsaPrivateKey (k : ECDSAPrivateKey)
  | ecdsaPublicKey (k : ECDSAPublicKey)
  | ed25519PrivateKey (bytes : List Nat)
  | ed25519PublicKey (bytes : List Nat)
  | dsaPrivateKeyValue (k : DSAPrivateKey)
  | dsaPublicKeyValue (k : DSAPublicKey)
  | dsaPrivateKeyPtr (k : DSAPrivateKey)
  | dsaPublicKeyPtr (k : DSAPublicKey)
  | otherKey
  deriving DecidableEq, Repr

/-- Go `KeySize` over a dynamically typed key argument, from src/certutil.go lines 114-139: returns
the key size in bits, or `-1` if the key type is unsupported. The pointer DSA
forms and `otherKey` all fall through to the `default` arm. -/
def KeySize (key : AnyKey) : Int :=
  match key with
  | .rsaPrivateKey k => ((k.pub.size * 8 : Nat) : Int)
  | .rsaPublicKey k => ((k.size * 8 : Nat) : Int)
  | .ecdsaPrivateKey k => k.pub.curve.BitSize
  | .ecdsaPublicKey k => k.curve.BitSize
  | .ed25519PrivateKey b => ((b.length * 8 : Nat) : Int)
  | .ed25519PublicKey b => ((b.length * 8 : Nat) : Int)
  | .dsaPrivateKeyValue k => ((bitLen k.Y : Nat) : Int)
  | .dsaPublicKeyValue k => ((bitLen k.Y : Nat) : Int)
  | .dsaPrivateKeyPtr _ => -1
  | .dsaPublicKeyPtr _ => -1
  | .otherKey => -1

/-- The result of `pem.Decode`: block type label and the DER payload bytes.
(The trailing rest returned by `pem.Decode` is discarded by every caller here.) -/
structure PemBlock where
  type : String
  bytes : List Nat
  deriving DecidableEq, Repr

/-- A PEM decoder: `pem.Decode` is an external collaborator, so the parsers take
it as an argument; `none` models the Go `block == nil` outcome (no PEM block
found in the input). -/
abbrev PemDecoder := String → Option PemBlock

/-- Go `ParseRSA(s string) (*rsa.PrivateKey, error)` from src/certutil.go lines
16-22, parameterized by the PEM decoder and by `x509.ParsePKCS1PrivateKey`. -/
def ParseRSA (pemDecode : PemDecoder)
    (parsePKCS1PrivateKey : List Nat → Except String RSAPrivateKey)
    (s : String) : Except Err RSAPrivateKey :=
  match pemDecode s with
  | none => .error (.malformedInput "invalid PEM")
  | some block =>
    match parsePKCS1PrivateKey block.bytes with
    | .ok k => .ok k
    | .error e => .error (.primitive e)

/-- Go `ParseECDSA(s string) (*ecdsa.PrivateKey, error)` from src/certutil.go lines
25-31, parameterized by the PEM decoder and by `x509.ParseECPrivateKey`. -/
def ParseECDSA (pemDecode : PemDecoder)
    (parseECPrivateKey : List Nat → Except String ECDSAPrivateKey)
    (s : String) : Except Err ECDSAPrivateKey :=
  match pemDecode s with
  | none => .error (.malformedInput "invalid PEM")
  | some block =>
    match parseECPrivateKey block.bytes with
    | .ok k => .ok k
    | .error e => .error (.primitive e)

/-- Go `ParseX509(s string) (*x509.Certificate, error)` from src/certutil.go lines
34-40, parameterized by the PEM decoder and by `x509.ParseCertificate`. -/
def ParseX509 (pemDecode : PemDecoder)
    (parseCertificate : List Nat → Except String Certificate)
    (s : String) : Except Err Certificate :=
  match pemDecode s with
  | none => .error (.malformedInput "invalid PEM")
  | some block =>
    match parseCertificate block.bytes with
    | .ok c => .ok c
    | .error e => .error (.primitive e)

/-- Go `ParsePublicKey(s string) (crypto.PublicKey, error)` from src/certutil.go
lines 43-68, parameterized by the PEM decoder, `x509.ParsePKIXPublicKey` and
`x509.ParseCertificate`. First the payload is tried as a bare
SubjectPublicKeyInfo; on failure it is tried as a full certificate whose
embedded public key is taken; on double failure the certificate error is
returned. The obtained raw key is then classified by the type switch. -/
def ParsePublicKey (pemDecode : PemDecoder)
    (parsePKIXPublicKey : List Nat → Except String PublicKey)
    (parseCertificate : List Nat → Except String Certificate)
    (s : String) : Except Err PublicKey :=
  match pemDecode s with
  | none => .error (.malformedInput "data does not contain any valid public keys")
  | some block =>
    let rawKey : Except String PublicKey :=
      match parsePKIXPublicKey block.bytes with
      | .ok k => .ok k
      | .error _ =>
        match parseCertificate block.bytes with
        | .ok cert => .ok cert.publicKey
        | .error e => .error e
    match rawKey with
    | .error e => .error (.primitive e)
    | .ok key =>
      match key with
      | .rsa _ => .ok key
      | .ecdsa _ => .ok key
      | .ed25519 _ => .ok key
      | .other _ => .error (.unsupportedKeyType key.typeName)

/-- Whether a dynamic public-key type is one of the three supported families. -/
def PublicKey.isSupported : PublicKey → Bool
  | .rsa _ => true
  | .ecdsa _ => true
  | .ed25519 _ => true
  | .other _ => false

/-- The P-256 (secp256r1) curve parameters as declared by the Go collaborator
library crypto/elliptic. -/
def p256 : CurveParams :=
  ⟨115792089210356248762697446949407573530086143415290314195533631308867097853951,
   115792089210356248762697446949407573529996955224135760342422259061068512044369,
   41058363725152142129326129780047268409114441015993725554835256314039467401291,
   48439561293906451759052585252797914202762949526041747995844080717082404635286,
   36134250956749795798585127919587881956611106672985015071877198253568414405109,
   256,
   "P-256"⟩

/-- A small nonstandard curve used as concrete test data for EC comparisons. -/
def tinyCurve : CurveParams :=
  ⟨23, 19, 5, 1, 2, 8, "tiny"⟩

/-- The same curve as `tinyCurve` except for the `B` coefficient. -/
def tinyCurveB7 : CurveParams :=
  ⟨23, 19, 7, 1, 2, 8, "tiny-b7"⟩

theorem natBitLen_two_pow (k : Nat) : natBitLen (2 ^ k) = k + 1 := by
  have hne : (2 : Nat) ^ k ≠ 0 := pow_ne_zero _ two_ne_zero
  have hlog : Nat.log2 (2 ^ k) = k := by
    rw [Nat.log2_eq_log_two]
    exact Nat.log_pow one_lt_two k
  simp [natBitLen, hne, hlog]

theorem bitLen_two_pow_int (k : Nat) : bitLen ((2 : Int) ^ k) = k + 1 := by
  rw [bitLen, Int.natAbs_pow]
  exact natBitLen_two_pow k

/-- Claim C1: the spec states that `ComparePublicKeys k k` returns `true` for
every supported key `k`. Evaluating the code on concrete reflexive inputs shows
the RSA and EC arms return `.ok false` (the not-equal result) on a key compared
with itself, because their `cmp` expression computes inequality; only the
Ed25519 arm returns `.ok true` as claimed. -/
theorem compare_self_reflexivity_eval :
    ComparePublicKeys (.rsa ⟨3233, 17⟩) (.rsa ⟨3233, 17⟩) = .ok false ∧
    ComparePublicKeys (.ecdsa ⟨tinyCurve, 3, 4⟩) (.ecdsa ⟨tinyCurve, 3, 4⟩)
      = .ok false ∧
    ComparePublicKeys (.ed25519 [1, 2, 3]) (.ed25519 [1, 2, 3]) = .ok true :=
  ⟨rfl, rfl, rfl⟩

/-- Claim C2: the spec states that for RSA keys the returned boolean is the
equal result exactly when modulus and exponent agree. Evaluating the code shows
the polarity is inverted: two RSA keys with numerically equal modulus and
exponent yield `.ok false`, while two different RSA keys yield `.ok true`. -/
theorem compare_rsa_inverted_eval :
    ComparePublicKeys (.rsa ⟨3233, 17⟩) (.rsa ⟨3233, 17⟩) = .ok false ∧
    ComparePublicKeys (.rsa ⟨3233, 17⟩) (.rsa ⟨15, 3⟩) = .ok true :=
  ⟨rfl, rfl⟩

/-- Claim C3: the spec states that for EC keys the returned boolean is the
equal result exactly when the point and all curve parameters agree. Evaluating
the code shows it returns `.ok false` both for an identical key pair and for a
same-curve different-point pair, and `.ok true` exactly for an equal-point pair
whose curve parameters differ: the polarity of the parameter comparison is
inverted and equal keys are reported not-equal. -/
theorem compare_ecdsa_inverted_eval :
    ComparePublicKeys (.ecdsa ⟨tinyCurve, 3, 4⟩) (.ecdsa ⟨tinyCurve, 3, 4⟩)
      = .ok false ∧
    ComparePublicKeys (.ecdsa ⟨tinyCurve, 3, 4⟩) (.ecdsa ⟨tinyCurveB7, 3, 4⟩)
      = .ok true ∧
    ComparePublicKeys (.ecdsa ⟨tinyCurve, 3, 4⟩) (.ecdsa ⟨tinyCurve, 5, 6⟩)
      = .ok false :=
  ⟨rfl, rfl, rfl⟩

/-- Claim C4: comparing keys of different families does fail with the
incomparable-key-types error and never returns a successful not-equal result,
but the error does not carry both type names: because the Go code formats the
shadowed, typed-nil `key2` from the failed type assertion, the message names the
first key family twice. Here an RSA key compared against an EC key yields the
names `*rsa.PublicKey` and `*rsa.PublicKey`, not `*ecdsa.PublicKey`. -/
theorem compare_mismatch_error_eval :
    ComparePublicKeys (.rsa ⟨3233, 17⟩) (.ecdsa ⟨tinyCurve, 3, 4⟩)
      = .error (.incomparableKeyTypes "*rsa.PublicKey" "*rsa.PublicKey") ∧
    ComparePublicKeys (.ecdsa ⟨tinyCurve, 3, 4⟩) (.rsa ⟨3233, 17⟩)
      = .error (.incomparableKeyTypes "*ecdsa.PublicKey" "*ecdsa.PublicKey") ∧
    ComparePublicKeys (.ed25519 [1, 2, 3]) (.rsa ⟨3233, 17⟩)
      = .error (.incomparableKeyTypes "ed25519.PublicKey" "ed25519.PublicKey") :=
  ⟨rfl, rfl, rfl⟩

/-- Claim C7: `KeySize` is total by its type and never fails; on a 2048-bit RSA
key (public or private, the size being derived from the modulus bit length
rounded to whole bytes times 8) it returns 2048; on an EC key whose curve
declares bit size 256 (such as P-256) it returns that declared 256; on an
unrecognized key type it returns the sentinel -1 instead of an error. -/
theorem keySize_bits_families :
    (∀ k : RSAPublicKey, bitLen k.N = 2048 → KeySize (.rsaPublicKey k) = 2048) ∧
    (∀ k : RSAPrivateKey, bitLen k.pub.N = 2048 →
      KeySize (.rsaPrivateKey k) = 2048) ∧
    (∀ k : ECDSAPublicKey, k.curve.BitSize = 256 →
      KeySize (.ecdsaPublicKey k) = 256) ∧
    (∀ k : ECDSAPrivateKey, k.pub.curve.BitSize = 256 →
      KeySize (.ecdsaPrivateKey k) = 256) ∧
    KeySize .otherKey = -1 := by
  refine ⟨?_, ?_, ?_, ?_, rfl⟩ <;> intro k h <;>
    simp [KeySize, RSAPublicKey.size, h]

/-- Witness for C7 at concrete inputs: a modulus of exactly 2048 bits and keys
on the real P-256 parameters. -/
theorem keySize_bits_families_witness :
    KeySize (.rsaPublicKey ⟨(2 : Int) ^ 2047, 65537⟩) = 2048 ∧
    KeySize (.rsaPrivateKey ⟨⟨(2 : Int) ^ 2047, 65537⟩, 1⟩) = 2048 ∧
    KeySize (.ecdsaPublicKey ⟨p256, p256.Gx, p256.Gy⟩) = 256 ∧
    KeySize (.ecdsaPrivateKey ⟨⟨p256, p256.Gx, p256.Gy⟩, 1⟩) = 256 :=
  ⟨keySize_bits_families.1 _ (bitLen_two_pow_int 2047),
   keySize_bits_families.2.1 _ (bitLen_two_pow_int 2047),
   keySize_bits_families.2.2.1 _ rfl,
   keySize_bits_families.2.2.2.1 _ rfl⟩

/-- Counterexample to claim C8: the raw bytes of a standard Ed25519 private key
(Go `ed25519.PrivateKeySize`) number 64, so `KeySize` returns 512, not 256. -/
theorem keySize_ed25519_private_not_256 :
    KeySize (.ed25519PrivateKey (List.replicate 64 0)) = 512 ∧
    KeySize (.ed25519PrivateKey (List.replicate 64 0)) ≠ 256 := by
  constructor <;> decide

/-- Claim C8 as amended: `KeySize` on an Ed25519 key, public or private, is the
byte length of the raw key times 8; for standard-length keys this is 256 for a
public key (32 raw bytes) and 512 for a private key (64 raw bytes, seed plus
public half), not 256 for both families. -/
theorem keySize_ed25519_raw_bytes :
    (∀ b : List Nat, KeySize (.ed25519PublicKey b) = ((b.length * 8 : Nat) : Int)) ∧
    (∀ b : List Nat, KeySize (.ed25519PrivateKey b) = ((b.length * 8 : Nat) : Int)) ∧
    (∀ b : List Nat, b.length = 32 → KeySize (.ed25519PublicKey b) = 256) ∧
    (∀ b : List Nat, b.length = 64 → KeySize (.ed25519PrivateKey b) = 512) := by
  refine ⟨fun b => rfl, fun b => rfl, ?_, ?_⟩ <;> intro b h <;> simp [KeySize, h]

/-- Witness for the amended C8 at standard key lengths. -/
theorem keySize_ed25519_raw_bytes_witness :
    KeySize (.ed25519PublicKey (List.replicate 32 0)) = 256 ∧
    KeySize (.ed25519PrivateKey (List.replicate 64 0)) = 512 :=
  ⟨keySize_ed25519_raw_bytes.2.2.1 _ (by simp),
   keySize_ed25519_raw_bytes.2.2.2 _ (by simp)⟩

/-- Claim C10: the DSA arms of the `KeySize` type switch match only the value
dynamic types: a DSA private or public key passed by value yields the bit
length of its `Y` component, while a pointer to a DSA private or public key
matches no case and falls through to the default arm, yielding -1. -/
theorem keySize_dsa_value_vs_pointer :
    (∀ k : DSAPrivateKey,
      KeySize (.dsaPrivateKeyValue k) = ((bitLen k.Y : Nat) : Int)) ∧
    (∀ k : DSAPublicKey,
      KeySize (.dsaPublicKeyValue k) = ((bitLen k.Y : Nat) : Int)) ∧
    (∀ k : DSAPrivateKey, KeySize (.dsaPrivateKeyPtr k) = -1) ∧
    (∀ k : DSAPublicKey, KeySize (.dsaPublicKeyPtr k) = -1) :=
  ⟨fun _ => rfl, fun _ => rfl, fun _ => rfl, fun _ => rfl⟩

/-- Claim C5: `ParsePublicKey` performs a two-stage fallback. Whenever a PEM
block is found, (1) if the payload decodes as a bare SubjectPublicKeyInfo
yielding a supported key, that key is returned; (2) if the first decode fails
but the payload decodes as a certificate with a supported embedded public key,
that embedded key is returned; (3) if both decodes fail, the returned error is
the certificate-parse error of the second attempt, not the first error. -/
theorem parsePublicKey_two_stage_fallback (pemDecode : PemDecoder)
    (pkix : List Nat → Except String PublicKey)
    (pcert : List Nat → Except String Certificate)
    (s : String) (b : PemBlock) (hb : pemDecode s = some b) :
    (∀ k, pkix b.bytes = .ok k → k.isSupported = true →
      ParsePublicKey pemDecode pkix pcert s = .ok k) ∧
    (∀ e1 cert, pkix b.bytes = .error e1 → pcert b.bytes = .ok cert →
      cert.publicKey.isSupported = true →
      ParsePublicKey pemDecode pkix pcert s = .ok cert.publicKey) ∧
    (∀ e1 e2, pkix b.bytes = .error e1 → pcert b.bytes = .error e2 →
      ParsePublicKey pemDecode pkix pcert s = .error (.primitive e2)) := by
  refine ⟨?_, ?_, ?_⟩
  · intro k hk hsup
    cases k with
    | rsa k0 => simp [ParsePublicKey, hb, hk]
    | ecdsa k0 => simp [ParsePublicKey, hb, hk]
    | ed25519 b0 => simp [ParsePublicKey, hb, hk]
    | other t => simp [PublicKey.isSupported] at hsup
  · intro e1 cert h1 h2 hsup
    cases hc : cert.publicKey with
    | rsa k0 => simp [ParsePublicKey, hb, h1, h2, hc]
    | ecdsa k0 => simp [ParsePublicKey, hb, h1, h2, hc]
    | ed25519 b0 => simp [ParsePublicKey, hb, h1, h2, hc]
    | other t => rw [hc] at hsup; simp [PublicKey.isSupported] at hsup
  · intro e1 e2 h1 h2
    simp [ParsePublicKey, hb, h1, h2]

/-- Witness for C5: concrete primitives where the bare-key decode fails and the
certificate decode succeeds with an embedded RSA key; the key is returned. -/
theorem parsePublicKey_two_stage_fallback_witness :
    ParsePublicKey (fun _ => some ⟨"CERTIFICATE", [48, 130]⟩)
      (fun _ => .error "asn1 structure error")
      (fun _ => .ok ⟨.rsa ⟨3233, 17⟩⟩) "pem text" = .ok (.rsa ⟨3233, 17⟩) :=
  (parsePublicKey_two_stage_fallback (fun _ => some ⟨"CERTIFICATE", [48, 130]⟩)
      (fun _ => .error "asn1 structure error") (fun _ => .ok ⟨.rsa ⟨3233, 17⟩⟩)
      "pem text" ⟨"CERTIFICATE", [48, 130]⟩ rfl).2.1
    "asn1 structure error" ⟨.rsa ⟨3233, 17⟩⟩ rfl rfl rfl

/-- Claim C6: once `ParsePublicKey` obtains a decoded raw key, from either
stage, it returns it only when the key is RSA, EC or Ed25519; a raw key of any
other dynamic type is rejected with the unsupported-key-type error carrying the
concrete type name found, whether it came from the bare decode or from the
embedded certificate key, and every successful result is a supported family. -/
theorem parsePublicKey_classification (pemDecode : PemDecoder)
    (pkix : List Nat → Except String PublicKey)
    (pcert : List Nat → Except String Certificate)
    (s : String) (b : PemBlock) (hb : pemDecode s = some b) :
    (∀ t, pkix b.bytes = .ok (.other t) →
      ParsePublicKey pemDecode pkix pcert s = .error (.unsupportedKeyType t)) ∧
    (∀ e cert t, pkix b.bytes = .error e → pcert b.bytes = .ok cert →
      cert.publicKey = .other t →
      ParsePublicKey pemDecode pkix pcert s = .error (.unsupportedKeyType t)) ∧
    (∀ k, ParsePublicKey pemDecode pkix pcert s = .ok k →
      k.isSupported = true) := by
  refine ⟨?_, ?_, ?_⟩
  · intro t ht
    simp [ParsePublicKey, hb, ht, PublicKey.typeName]
  · intro e cert t he hc hkey
    simp [ParsePublicKey, hb, he, hc, hkey, PublicKey.typeName]
  · intro k hk
    cases hp : pkix b.bytes with
    | ok k0 =>
      cases k0 with
      | rsa k1 =>
        simp [ParsePublicKey, hb, hp] at hk
        simp [← hk, PublicKey.isSupported]
      | ecdsa k1 =>
        simp [ParsePublicKey, hb, hp] at hk
        simp [← hk, PublicKey.isSupported]
      | ed25519 b1 =>
        simp [ParsePublicKey, hb, hp] at hk
        simp [← hk, PublicKey.isSupported]
      | other t =>
        simp [ParsePublicKey, hb, hp] at hk
    | error e1 =>
      cases hc : pcert b.bytes with
      | ok cert =>
        cases hck : cert.publicKey with
        | rsa k1 =>
          simp [ParsePublicKey, hb, hp, hc, hck] at hk
          simp [← hk, PublicKey.isSupported]
        | ecdsa k1 =>
          simp [ParsePublicKey, hb, hp, hc, hck] at hk
          simp [← hk, PublicKey.isSupported]
        | ed25519 b1 =>
          simp [ParsePublicKey, hb, hp, hc, hck] at hk
          simp [← hk, PublicKey.isSupported]
        | other t =>
          simp [ParsePublicKey, hb, hp, hc, hck] at hk
      | error e2 =>
        simp [ParsePublicKey, hb, hp, hc] at hk

/-- Witness for C6: a bare decode producing an unsupported dynamic type (here
the type name of a DSA public key) is rejected with that name in the error. -/
theorem parsePublicKey_classification_witness :
    ParsePublicKey (fun _ => some ⟨"PUBLIC KEY", [48]⟩)
      (fun _ => .ok (.other "*dsa.PublicKey"))
      (fun _ => .error "not a certificate") "pem text"
      = .error (.unsupportedKeyType "*dsa.PublicKey") :=
  (parsePublicKey_classification (fun _ => some ⟨"PUBLIC KEY", [48]⟩)
      (fun _ => .ok (.other "*dsa.PublicKey"))
      (fun _ => .error "not a certificate") "pem text"
      ⟨"PUBLIC KEY", [48]⟩ rfl).1 "*dsa.PublicKey" rfl

/-- Claim C9: on any input in which the PEM decoder finds no block, each of the
four parse operations fails with its malformed-input error (the exact message
the Go code supplies) rather than any other error kind or a success. -/
theorem parsers_malformed_input (pemDecode : PemDecoder)
    (p1 : List Nat → Except String RSAPrivateKey)
    (p2 : List Nat → Except String ECDSAPrivateKey)
    (p3 : List Nat → Except String Certificate)
    (p4 : List Nat → Except String PublicKey)
    (s : String) (h : pemDecode s = none) :
    ParseRSA pemDecode p1 s = .error (.malformedInput "invalid PEM") ∧
    ParseECDSA pemDecode p2 s = .error (.malformedInput "invalid PEM") ∧
    ParseX509 pemDecode p3 s = .error (.malformedInput "invalid PEM") ∧
    ParsePublicKey pemDecode p4 p3 s
      = .error (.malformedInput "data does not contain any valid public keys") := by
  refine ⟨?_, ?_, ?_, ?_⟩ <;>
    simp [ParseRSA, ParseECDSA, ParseX509, ParsePublicKey, h]

/-- Witness for C9 on the plain text input from the spec, with a decoder that
finds no PEM block in it. -/
theorem parsers_malformed_input_witness :
    ParseRSA (fun _ => none) (fun _ => .error "e1") "not a pem"
      = .error (.malformedInput "invalid PEM") ∧
    ParseECDSA (fun _ => none) (fun _ => .error "e2") "not a pem"
      = .error (.malformedInput "invalid PEM") ∧
    ParseX509 (fun _ => none) (fun _ => .error "e3") "not a pem"
      = .error (.malformedInput "invalid PEM") ∧
    ParsePublicKey (fun _ => none) (fun _ => .error "e4") (fun _ => .error "e3")
      "not a pem"
      = .error (.malformedInput "data does not contain any valid public keys") :=
  parsers_malformed_input (fun _ => none) (fun _ => .error "e1")
    (fun _ => .error "e2") (fun _ => .error "e3") (fun _ => .error "e4")
    "not a pem" rfl

end Certutil
